import Mathlib

/-!
Shallow embedding, in Lean 4, of the genealogy biography writer
(`bio_writer.py`) and of the record-validation step of its batch driver
(`bio_batch_jsonl.py`).

Modelling conventions:
* Python `None`-or-missing dictionary fields become `Option`-valued record
  fields; an empty dict `{}` behaves exactly like `None` at every read site
  of this program, so it is also modelled as `none`.
* Python string truthiness (`if s:`) is `truthyStr`; integer truthiness is
  `truthyInt`.
* Fallible code is modelled with `Except String`; the error value names the
  Python exception class that escapes (the only uncaught exception in the
  translated fragment is the `IndexError` of `_format_when_iso`).
* `int(...)` parsing is modelled for ASCII digit strings (optional
  surrounding whitespace, optional sign, single underscores between digits);
  `str.lower` / `str.upper` / `str.casefold` are modelled on ASCII letters.
* Machine-level details (arbitrary precision ints) need no truncation:
  Python ints are unbounded, and so are `Int`/`Nat` here.
-/

/-- Python truthiness of an optional string: `None` and `""` are falsy. -/
def truthyStr (s : Option String) : Bool :=
  !(s.getD "").isEmpty

/-- Python truthiness of an optional int: `None` and `0` are falsy. -/
def truthyInt (i : Option Int) : Bool :=
  match i with
  | none => false
  | some n => n != 0

/-- ASCII lower-casing, modelling `str.lower()` / `str.casefold()` on the
ASCII names this program handles. -/
def pyLower (s : String) : String := String.mk (s.data.map Char.toLower)

/-- ASCII upper-casing, modelling `str.upper()`. -/
def pyUpper (s : String) : String := String.mk (s.data.map Char.toUpper)

/-- `str.capitalize()`: first character upper-cased, the rest lower-cased. -/
def pyCapitalize (s : String) : String :=
  match s.data with
  | [] => ""
  | c :: rest => String.mk (Char.toUpper c :: rest.map Char.toLower)

/-- `str.strip(chars)`: drop leading and trailing characters from `set`. -/
def stripChars (s : String) (set : List Char) : String :=
  String.mk (((s.data.dropWhile (set.contains ·)).reverse.dropWhile (set.contains ·)).reverse)

/-- `str.strip()`: drop surrounding whitespace. -/
def pyStrip (s : String) : String :=
  String.mk (((s.data.dropWhile Char.isWhitespace).reverse.dropWhile Char.isWhitespace).reverse)

/-- `str.split(sep)` for a one-character separator (empty fields kept). -/
def splitOnChar (sep : Char) : List Char → List (List Char)
  | [] => [[]]
  | c :: rest =>
    if c = sep then [] :: splitOnChar sep rest
    else
      match splitOnChar sep rest with
      | [] => [[c]]
      | g :: gs => (c :: g) :: gs

/-- `s.split("-")`. -/
def pySplitDash (s : String) : List String := (splitOnChar '-' s.data).map String.mk

/-- Token accumulator of `str.split()` (whitespace runs, no empty fields). -/
def splitWsAux : List Char → List Char → List (List Char)
  | [], acc => if acc.isEmpty then [] else [acc.reverse]
  | c :: rest, acc =>
    if c.isWhitespace then
      if acc.isEmpty then splitWsAux rest [] else acc.reverse :: splitWsAux rest []
    else splitWsAux rest (c :: acc)

/-- `str.split()` with no argument. -/
def pySplitWs (s : String) : List String := (splitWsAux s.data []).map String.mk

/-- `s.endswith(c)` for a one-character suffix. -/
def pyEndsWithChar (s : String) (c : Char) : Bool := s.data.getLast? == some c

/-- Digit run of `int(...)`: base-10 digits with single underscores allowed
between digits (Python 3 numeric-literal grouping). -/
def pyIntDigits : List Char → Nat → Option Nat
  | [], acc => some acc
  | '_' :: c :: rest, acc =>
      if c.isDigit then pyIntDigits rest (acc * 10 + (c.toNat - 48)) else none
  | c :: rest, acc =>
      if c.isDigit then pyIntDigits rest (acc * 10 + (c.toNat - 48)) else none

/-- Unsigned part of `int(...)`: at least one digit, then `pyIntDigits`. -/
def pyIntCore (cs : List Char) : Option Nat :=
  match cs with
  | [] => none
  | c :: rest => if c.isDigit then pyIntDigits rest (c.toNat - 48) else none

/-- Python `int(s)` on ASCII strings: surrounding whitespace stripped, one
optional sign, then digits; any other shape raises, modelled as `none`
(every call site of this program catches the `ValueError`). -/
def pyInt (s : String) : Option Int :=
  match (pyStrip s).data with
  | '+' :: rest => (pyIntCore rest).map (fun n => (n : Int))
  | '-' :: rest => (pyIntCore rest).map (fun n => -(n : Int))
  | cs => (pyIntCore cs).map (fun n => (n : Int))

/-- A `datetime.date` value (only constructed for valid calendar dates). -/
structure PyDate where
  year : Int
  month : Nat
  day : Nat
deriving DecidableEq

/-- Gregorian leap-year rule used by `datetime.date`. -/
def isLeapYear (y : Int) : Bool :=
  y % 4 == 0 && (y % 100 != 0 || y % 400 == 0)

/-- Days in a month, as validated by the `datetime.date` constructor. -/
def daysInMonth (y : Int) (m : Nat) : Nat :=
  if m = 2 then (if isLeapYear y then 29 else 28)
  else if m = 4 ∨ m = 6 ∨ m = 9 ∨ m = 11 then 30
  else 31

/-- `datetime.date(y, m, d)`: `some` on valid dates (year 1-9999), `none`
models the `ValueError` (caught at every call site of this program). -/
def mkDate (y m d : Int) : Option PyDate :=
  if 1 ≤ y ∧ y ≤ 9999 ∧ 1 ≤ m ∧ m ≤ 12 ∧ 1 ≤ d ∧ d ≤ (daysInMonth y m.toNat : Int)
  then some ⟨y, m.toNat, d.toNat⟩ else none

/-- `datetime.date.max` = `date(9999, 12, 31)`. -/
def date_max : PyDate := ⟨9999, 12, 31⟩

/-- Python `date` comparison: lexicographic on (year, month, day). -/
def dateLE (a b : PyDate) : Bool :=
  decide (a.year < b.year ∨ (a.year = b.year ∧
    (a.month < b.month ∨ (a.month = b.month ∧ a.day ≤ b.day))))

/-- `_MONTHS_EN` from `bio_writer.py` (index 0 unused). -/
def MONTHS_EN : List String :=
  ["", "January", "February", "March", "April", "May", "June",
   "July", "August", "September", "October", "November", "December"]

/-- `_parse_ymd`: `some date` only for a valid `YYYY-MM-DD`; every raised
exception is caught and becomes `none`. -/
def parse_ymd (s : Option String) : Option PyDate :=
  match s with
  | none => none
  | some str =>
    if str.isEmpty then none
    else
      match pySplitDash str with
      | [a, b, c] =>
        match pyInt a, pyInt b, pyInt c with
        | some y, some m, some d => mkDate y m d
        | _, _, _ => none
      | _ => none

/-- `_parse_partial_iso`: `(year, month, day)` from `YYYY`, `YYYY-MM` or
`YYYY-MM-DD` (four or more dash-separated fields parse only year and month);
any parse failure yields `(none, none, none)`. -/
def parse_partial_iso (s : Option String) : Option Int × Option Int × Option Int :=
  match s with
  | none => (none, none, none)
  | some str =>
    if str.isEmpty then (none, none, none)
    else
      match pySplitDash str with
      | [] => (none, none, none)
      | p0 :: rest =>
        match pyInt p0 with
        | none => (none, none, none)
        | some y =>
          match rest with
          | [] => (some y, none, none)
          | p1 :: rest2 =>
            match pyInt p1 with
            | none => (none, none, none)
            | some m =>
              match rest2 with
              | [p2] =>
                match pyInt p2 with
                | none => (none, none, none)
                | some d => (some y, some m, some d)
              | _ => (some y, some m, none)

/-- `_format_when_iso`: renders a partial ISO date. The `YYYY-MM-DD` branch
guards its month-table lookup with try/except (out-of-range months fall back
to the year string); the `YYYY-MM` branch does not, so a month beyond 12
raises an uncaught `IndexError`, modelled as `Except.error`. Months from
`parse_partial_iso` are never negative, so Python's negative indexing cannot
occur here. -/
def format_when_iso (s : Option String) : Except String (Option String) :=
  let p := parse_partial_iso s
  let y := p.1
  let m := p.2.1
  let d := p.2.2
  if !truthyInt y then Except.ok none
  else if truthyInt m && truthyInt d then
    if m.getD 0 ≤ 12 then
      Except.ok (some (toString (d.getD 0) ++ " " ++ MONTHS_EN.getD (m.getD 0).toNat "" ++
        " " ++ toString (y.getD 0)))
    else
      Except.ok (some (toString (y.getD 0)))
  else if truthyInt m then
    if m.getD 0 ≤ 12 then
      Except.ok (some (MONTHS_EN.getD (m.getD 0).toNat "" ++ " " ++ toString (y.getD 0)))
    else
      Except.error "IndexError"
  else
    Except.ok (some (toString (y.getD 0)))

/-- `_format_date`: `f"{d.day} {_MONTHS_EN[d.month]} {d.year}"`. -/
def format_date (d : PyDate) : String :=
  toString d.day ++ " " ++ MONTHS_EN.getD d.month "" ++ " " ++ toString d.year

/-- A `birth` / `death` / `marriage` / `burial` sub-record. -/
structure EventInfo where
  date : Option String := none
  place : Option String := none
deriving DecidableEq

/-- A row of the subject's `children` list. -/
structure ChildRef where
  henry_number : Option String := none
  name : Option String := none
deriving DecidableEq

/-- A marriage record (`spouses` entry). A `None` entry of the Python list
behaves like an empty dict at every read site of `build_biography`, so it is
modelled as the all-`none` record. `sex` models the `get("gender") or
get("sex")` lookup chain; `children_henry_numbers` and `children` are `none`
when the key is absent or not a list. -/
structure Spouse where
  name : Option String := none
  sex : Option String := none
  birth : Option EventInfo := none
  death : Option EventInfo := none
  burial : Option EventInfo := none
  marriage : Option EventInfo := none
  children_count : Option Int := none
  children_henry_numbers : Option (List String) := none
  children : Option (List ChildRef) := none
deriving DecidableEq

/-- A subject record. `father`/`mother` model the result of the alias-lookup
chains (`parents.father` / `parents.father_name` / `father` / `father_name`);
`spouses` and `children` model `get(...) or []`. -/
structure Person where
  henry_number : Option String := none
  name : Option String := none
  sex : Option String := none
  birth : Option EventInfo := none
  death : Option EventInfo := none
  burial : Option EventInfo := none
  father : Option String := none
  mother : Option String := none
  spouses : List Spouse := []
  children : List ChildRef := []
  outside_children_henry_numbers : Option (List String) := none
deriving DecidableEq

/-- The fields read by the person-or-spouse generic helpers
(`_safe_name`, `_death_sentence`, `_death_tuple`, `_is_100_plus_without_death`). -/
structure Entry where
  name : Option String := none
  sex : Option String := none
  birth : Option EventInfo := none
  death : Option EventInfo := none
  burial : Option EventInfo := none
deriving DecidableEq

def Person.entry (p : Person) : Entry :=
  ⟨p.name, p.sex, p.birth, p.death, p.burial⟩

def Spouse.entry (s : Spouse) : Entry :=
  ⟨s.name, s.sex, s.birth, s.death, s.burial⟩

/-- Pronoun set returned by `_pronouns`. -/
structure Pronouns where
  subj : String
  obj : String
  poss : String
deriving DecidableEq

/-- `_pronouns`: strip + upper-case the marker; `M`/`F` select the fixed
sets, anything else maps to the neutral set. -/
def pronouns (sex : Option String) : Pronouns :=
  let s := pyUpper (pyStrip (sex.getD ""))
  if s = "M" then ⟨"He", "him", "his"⟩
  else if s = "F" then ⟨"She", "her", "her"⟩
  else ⟨"They", "them", "their"⟩

/-- `_has_death_info` on the `death` sub-record: date or place truthy. -/
def has_death_info_ev (death : Option EventInfo) : Bool :=
  match death with
  | none => false
  | some e => truthyStr e.date || truthyStr e.place

/-- `_has_death_info` for a subject record. -/
def has_death_info (p : Person) : Bool := has_death_info_ev p.death

/-- `_safe_name` with an explicit fallback. -/
def safe_name_fb (n : Option String) (fallback : String) : String :=
  match n with
  | some s => if (pyStrip s).isEmpty then fallback else pyStrip s
  | none => fallback

/-- `_safe_name` with the default `"Unknown"` fallback. -/
def safe_name (n : Option String) : String := safe_name_fb n "Unknown"

/-- `_ORDINALS.get(n, f"{n}th")`. -/
def ordinal (n : Nat) : String :=
  match n with
  | 1 => "first"
  | 2 => "second"
  | 3 => "third"
  | 4 => "fourth"
  | 5 => "fifth"
  | 6 => "sixth"
  | 7 => "seventh"
  | 8 => "eighth"
  | 9 => "ninth"
  | 10 => "tenth"
  | _ => toString n ++ "th"

/-- `_norm_place`: `(s or "").strip().casefold()`. -/
def norm_place (s : Option String) : String := pyLower (pyStrip (s.getD ""))

/-- `hn.count(".")`. -/
def count_dots (s : String) : Nat := s.data.count '.'

/-- `"\t" * n`. -/
def tabs (n : Nat) : String := String.mk (List.replicate n '\t')

/-- `_indent_from_henry`: one tab per dot. -/
def indent_from_henry (hn : String) : String := tabs (count_dots hn)

/-- `_age_on_exact`: year difference, decremented when the event's
(month, day) precedes the birth's (month, day). -/
def age_on_exact (d_birth d_event : Option PyDate) : Option Int :=
  match d_birth, d_event with
  | some b, some e =>
    let years := e.year - b.year
    if e.month < b.month ∨ (e.month = b.month ∧ e.day < b.day) then some (years - 1)
    else some years
  | _, _ => none

/-- `_age_on_partial_iso`: exact when both strings are valid `YYYY-MM-DD`,
otherwise the coarse year difference with the month-only adjustment,
flagged approximate. -/
def age_on_partial_iso (birth_iso event_iso : Option String) : Option Int × Bool :=
  let bp := parse_partial_iso birth_iso
  let ep := parse_partial_iso event_iso
  if !truthyInt bp.1 || !truthyInt ep.1 then (none, false)
  else
    match parse_ymd birth_iso, parse_ymd event_iso with
    | some db, some de => (age_on_exact (some db) (some de), false)
    | _, _ =>
      let age := ep.1.getD 0 - bp.1.getD 0
      let age :=
        if truthyInt bp.2.1 && truthyInt ep.2.1 && decide (ep.2.1.getD 0 < bp.2.1.getD 0)
        then age - 1 else age
      (some age, true)

/-- `_collect_spouse_children_hn`: the set of non-empty trimmed entries of
`children_henry_numbers`; modelled as the deduplicated list, whose length is
the Python set's size. -/
def collect_spouse_children_hn (sp : Spouse) : List String :=
  (((sp.children_henry_numbers.getD []).map pyStrip).filter (fun s => !s.isEmpty)).dedup

/-- Characters treated as dashes by the `_last_token` filters. -/
def dashChars : List Char := ['—', '-']

/-- Characters stripped from the ends of a surname token (`",. "`). -/
def surnameStrip : List Char := [',', '.', ' ']

/-- Whitespace-token list shared by both `_last_token` definitions:
`s.strip().split()` filtered to tokens that are non-empty and not made of
dashes only. -/
def nameTokens (str : String) : List String :=
  (pySplitWs (pyStrip str)).filter
    (fun p => !p.isEmpty && !(stripChars p dashChars).isEmpty)

/-- The second (effective) `_last_token` (lines 312-317): last token,
stripped of `",. "`, NOT case-folded. Non-string input yields `""`. -/
def last_token (s : Option String) : String :=
  match s with
  | none => ""
  | some str => stripChars ((nameTokens str).getLastD "") surnameStrip

/-- The first `_last_token` (lines 245-249), shadowed by the later
definition: same as `last_token` but case-folded. -/
def last_token_v1 (s : Option String) : String :=
  pyLower (last_token s)

/-- Consonant-class table of `_soundex_key` (step 2). -/
def soundexDigit (c : Char) : Char :=
  if ['B', 'F', 'P', 'V'].contains c then '1'
  else if ['C', 'G', 'J', 'K', 'Q', 'S', 'X', 'Z'].contains c then '2'
  else if ['D', 'T'].contains c then '3'
  else if c = 'L' then '4'
  else if ['M', 'N'].contains c then '5'
  else if c = 'R' then '6'
  else c

/-- Step 5 of `_soundex_key`: the regex `(\d)\1+` collapses each run of one
repeated digit to a single copy. -/
def collapseAdjDigits : List Char → List Char
  | [] => []
  | [c] => [c]
  | a :: b :: rest =>
      if a = b && a.isDigit then collapseAdjDigits (b :: rest)
      else a :: collapseAdjDigits (b :: rest)

def isAsciiAlpha (c : Char) : Bool :=
  ('A' ≤ c && c ≤ 'Z') || ('a' ≤ c && c ≤ 'z')

/-- `_soundex_key` (lines 251-279, part of the shadowed inference chain):
keep the first letter, map the remaining consonants to digit classes, turn
vowels/H/W/Y into `0`, collapse adjacent duplicate digits, drop zeros, pad
with `000` and truncate to 4. -/
def soundex_key (token : String) : String :=
  if token.isEmpty then ""
  else
    let t := (token.data.filter isAsciiAlpha).map Char.toUpper
    match t with
    | [] => ""
    | first :: rest =>
      let coded := rest.map soundexDigit
      let coded := coded.map (fun c =>
        if ['A', 'E', 'I', 'O', 'U', 'Y', 'H', 'W'].contains c then '0' else c)
      let coded := collapseAdjDigits coded
      let coded := coded.filter (fun c => c != '0')
      String.mk ((first :: coded ++ ['0', '0', '0']).take 4)

/-- `_surname_key` (shadowed chain): soundex of the case-folded last token. -/
def surname_key (s : Option String) : String := soundex_key (last_token_v1 s)

/-- The phonetic fallback of the first (shadowed) `_infer_children_for_spouse`
(lines 297-306): count the subject's children whose surname key matches the
spouse's surname key. -/
def soundex_match_count (p : Person) (sp : Spouse) : Int :=
  let key_sp := surname_key sp.name
  if key_sp.isEmpty then 0
  else
    ((p.children.filter (fun ch =>
      let nm := ch.name.getD ""
      !nm.isEmpty && surname_key (some nm) == key_sp)).length : Int)

/-- The first `_infer_children_for_spouse` (lines 284-306). It is shadowed by
the later definition and never runs; translated for comparison with the
spec's priority chain. Order: `children_count`, then a non-empty
`children_henry_numbers` (raw length, not deduplicated), then a non-empty
embedded `children` list, then the phonetic heuristic. -/
def infer_children_for_spouse_v1 (p : Person) (sp : Spouse) : Int :=
  match sp.children_count with
  | some n => n
  | none =>
    if !(sp.children_henry_numbers.getD []).isEmpty then
      ((sp.children_henry_numbers.getD []).length : Int)
    else if !(sp.children.getD []).isEmpty then
      ((sp.children.getD []).length : Int)
    else
      soundex_match_count p sp

/-- The second, effective `_infer_children_for_spouse` (lines 319-343): it
never reads `children_henry_numbers`; `children_count` wins, then a
non-empty embedded `children` list, then a case-insensitive exact surname
match against the subject's children. -/
def infer_children_for_spouse (p : Person) (sp : Spouse) : Int :=
  match sp.children_count with
  | some n => n
  | none =>
    if !(sp.children.getD []).isEmpty then
      ((sp.children.getD []).length : Int)
    else
      let spouse_surname := last_token sp.name
      if spouse_surname.isEmpty then 0
      else
        ((p.children.filter (fun ch =>
          let child_surname := last_token (some (ch.name.getD ""))
          !child_surname.isEmpty && pyLower spouse_surname == pyLower child_surname)).length : Int)

/-- `AGE_ASSUME_DECEASED_YEARS`. -/
def AGE_ASSUME_DECEASED_YEARS : Int := 100

/-- `ENABLE_QNA_SUMMARY_PT` (module-level toggle, off in the source). -/
def ENABLE_QNA_SUMMARY_PT : Bool := false

/-- `_is_likely_deceased`: recorded death, or exact age from a full birth
date reaching the threshold. `date.today()` is threaded as `today`. -/
def is_likely_deceased (today : PyDate) (p : Person) : Bool :=
  if has_death_info p then true
  else
    match parse_ymd ((p.birth.getD {}).date) with
    | some db =>
      match age_on_exact (some db) (some today) with
      | some age => decide (age ≥ AGE_ASSUME_DECEASED_YEARS)
      | none => false
    | none => false

/-- `_is_100_plus_without_death`: no recorded death info and a (possibly
partial) birth year at least the threshold before `today`'s year. -/
def is_100_plus_without_death (today : PyDate) (e : Entry) : Bool :=
  if has_death_info_ev e.death then false
  else
    let y := (parse_partial_iso ((e.birth.getD {}).date)).1
    if !truthyInt y then false
    else decide (today.year - y.getD 0 ≥ AGE_ASSUME_DECEASED_YEARS)

/-- `_format_birth_parents`: birth sentence (name, optional date rendered
with "on", optional place with "in"), then the optional parentage sentence.
Propagates the `IndexError` of `_format_when_iso`. -/
def format_birth_parents (p : Person) (P : Pronouns) : Except String String := do
  let birth := p.birth.getD {}
  let when ← format_when_iso birth.date
  let place := birth.place
  let s0 := safe_name p.name ++ " was born"
  let s1 :=
    if truthyStr when && truthyStr place then
      s0 ++ " on " ++ when.getD "" ++ ", in " ++ place.getD ""
    else if truthyStr when then s0 ++ " on " ++ when.getD ""
    else if truthyStr place then s0 ++ " in " ++ place.getD ""
    else s0
  let s2 := s1 ++ "."
  if truthyStr p.father || truthyStr p.mother then
    let verb := if p.death.isNone then "is" else "was"
    let relation :=
      if P.subj = "He" then "son" else if P.subj = "She" then "daughter" else "child"
    let phrase :=
      if truthyStr p.father && truthyStr p.mother then
        verb ++ " the " ++ relation ++ " of " ++ p.father.getD "" ++ " and " ++ p.mother.getD "" ++ "."
      else if truthyStr p.father then
        verb ++ " the " ++ relation ++ " of " ++ p.father.getD "" ++ "."
      else
        verb ++ " the " ++ relation ++ " of " ++ p.mother.getD "" ++ "."
    return s2 ++ " " ++ P.subj ++ " " ++ phrase
  else
    return s2

/-- `_spouse_intro`: the spouse's birth date appears only when `_parse_ymd`
accepts it as a full valid `YYYY-MM-DD`; the place appears independently. -/
def spouse_intro (sp : Spouse) (P : Pronouns) (idx total : Nat) : String :=
  let b := sp.birth.getD {}
  let when_b := (parse_ymd b.date).map format_date
  let place_b := b.place
  let head :=
    if total = 1 then pyCapitalize P.poss ++ " spouse was " ++ safe_name sp.name
    else pyCapitalize P.poss ++ " " ++ ordinal idx ++ " spouse was " ++ safe_name sp.name
  if truthyStr when_b && truthyStr place_b then
    head ++ ", who was born on " ++ when_b.getD "" ++ " in " ++ place_b.getD "" ++ "."
  else if truthyStr when_b then
    head ++ ", who was born on " ++ when_b.getD "" ++ "."
  else if truthyStr place_b then
    head ++ ", who was born in " ++ place_b.getD "" ++ "."
  else
    head ++ "."

/-- `_format_marriage`: marriage sentence with optional date/place and the
optional age clause ("about" when either age is approximate); empty string
when there is no marriage record or no date and no place. -/
def format_marriage (p : Person) (sp : Spouse) (P S : Pronouns) : Except String String := do
  match sp.marriage with
  | none => return ""
  | some m =>
    let when0 ← format_when_iso m.date
    let when := when0.getD ""
    let place := pyStrip (m.place.getD "")
    if when.isEmpty && place.isEmpty then
      return ""
    else
      let base :=
        if !when.isEmpty && !place.isEmpty then "They were married on " ++ when ++ " in " ++ place
        else if !when.isEmpty then "They were married on " ++ when
        else "They were married in " ++ place
      let ap := age_on_partial_iso ((p.birth.getD {}).date) m.date
      let asp := age_on_partial_iso ((sp.birth.getD {}).date) m.date
      let base2 :=
        match ap.1, asp.1 with
        | some a_p, some a_s =>
          let about := if ap.2 || asp.2 then " about" else ""
          base ++ "; " ++ pyLower P.subj ++ " was" ++ about ++ " " ++ toString a_p ++
            " and " ++ pyLower S.subj ++ " was" ++ about ++ " " ++ toString a_s
        | _, _ => base
      if pyEndsWithChar base2 '.' then return base2 else return base2 ++ "."

/-- `_children_clause`: "From this marriage, they had at least N child(ren)."
for a positive inferred count, empty otherwise. -/
def children_clause (p : Person) (sp : Spouse) : String :=
  let n := infer_children_for_spouse p sp
  if n > 0 then
    "From this marriage, they had at least " ++ toString n ++ " " ++
      (if n = 1 then "child" else "children") ++ "."
  else ""

/-- `_death_sentence`: `none` when neither a renderable death date nor a
death place exists; otherwise the sentence with optional age-at-death and
the non-redundant burial clause. -/
def death_sentence (e : Entry) (P : Pronouns) : Except String (Option String) := do
  let birth := e.birth.getD {}
  let death := e.death.getD {}
  let when ← format_when_iso death.date
  let d_place := death.place
  let ages := age_on_partial_iso birth.date death.date
  if !truthyStr when && !truthyStr d_place then
    return none
  else
    let core := safe_name e.name ++ " died"
    let core :=
      if truthyStr when && truthyStr d_place then
        core ++ " on " ++ when.getD "" ++ " in " ++ d_place.getD ""
      else if truthyStr when then core ++ " on " ++ when.getD ""
      else core ++ " in " ++ d_place.getD ""
    let core :=
      match ages.1 with
      | some age =>
        core ++ ", at the age of" ++ (if ages.2 then " about" else "") ++ " " ++ toString age ++ "."
      | none => core ++ "."
    let burial_place := (e.burial.getD {}).place
    let core :=
      if truthyStr burial_place &&
          !(norm_place burial_place == norm_place d_place) &&
          !(norm_place burial_place == norm_place birth.place) then
        core ++ " " ++ P.subj ++ " was buried in " ++ burial_place.getD "" ++ "."
      else core
    return some core

/-- `_death_tuple`: `(death date parsed as full YYYY-MM-DD, sentence)`; the
sentence defaults to `""`. -/
def death_tuple (e : Entry) : Except String (Option PyDate × String) := do
  let sent ← death_sentence e (pronouns e.sex)
  return (parse_ymd ((e.death.getD {}).date), sent.getD "")

/-- The sort key order of `death_entries.sort(key=lambda x: (x[0] is None,
x[0] or date.max))`: dated entries first in date order, undated entries
compare equal (stable sort keeps their encounter order). -/
def entryLE (a b : Option PyDate × String) : Bool :=
  (!a.1.isNone && b.1.isNone) ||
    ((a.1.isNone == b.1.isNone) && dateLE (a.1.getD date_max) (b.1.getD date_max))

/-- The in-place stable sort of the collected death entries. -/
def sort_death_entries (l : List (Option PyDate × String)) : List (Option PyDate × String) :=
  l.mergeSort entryLE

/-- The death block: sorted sentences joined with single spaces. -/
def death_block (entries : List (Option PyDate × String)) : String :=
  String.intercalate " " ((sort_death_entries entries).map (fun t => t.2))

/-- Death tuples of the spouses, in listed order, keeping only those with a
non-empty sentence (`if tup[1]:`). -/
def spouse_death_tuples : List Spouse → Except String (List (Option PyDate × String))
  | [] => return []
  | sp :: rest => do
    let t ← death_tuple sp.entry
    let r ← spouse_death_tuples rest
    if t.2.isEmpty then return r else return t :: r

/-- `death_entries` of `build_biography`: the subject's tuple followed by the
spouses' tuples, each kept only when its sentence is non-empty. -/
def collect_death_entries (p : Person) : Except String (List (Option PyDate × String)) := do
  let t ← death_tuple p.entry
  let r ← spouse_death_tuples p.spouses
  if t.2.isEmpty then return r else return t :: r

/-- One spouse's appended parts: intro, the marriage sentence when
non-empty, and the (possibly empty) children clause. -/
def spouse_block (p : Person) (P : Pronouns) (total idx : Nat) (sp : Spouse) :
    Except String (List String) := do
  let S := pronouns sp.sex
  let intro := spouse_intro sp P idx total
  let m ← format_marriage p sp P S
  let cc := children_clause p sp
  if m.isEmpty then return [intro, cc] else return [intro, m, cc]

/-- The per-spouse loop of `build_biography` (1-based enumeration). -/
def spouse_blocks (p : Person) (P : Pronouns) (total : Nat) :
    Nat → List Spouse → Except String (List String)
  | _, [] => return []
  | idx, sp :: rest => do
    let b ← spouse_block p P total idx sp
    let r ← spouse_blocks p P total (idx + 1) rest
    return b ++ r

/-- `_format_children_list`: one `"{indent}{henry} {name}"` row per child
having both fields, joined by newlines. -/
def format_children_list (children : List ChildRef) : String :=
  String.intercalate "\n" (children.filterMap (fun ch =>
    let hn := (ch.henry_number.getD "")
    let nm := safe_name_fb ch.name ""
    if !hn.isEmpty && !nm.isEmpty then some (indent_from_henry hn ++ hn ++ " " ++ nm)
    else none))

/-- One `per_spouse` row of `_children_distribution`. -/
structure PerSpouse where
  index : Nat
  spouse_name : String
  count : Int
  source : String
deriving DecidableEq

/-- The result of `_children_distribution`. -/
structure Distribution where
  marriages_count : Nat
  total_children : Nat
  per_spouse : List PerSpouse
  outside_count : Option Nat
deriving DecidableEq

/-- The per-spouse loop of `_children_distribution` (1-based enumeration);
the `used_hn` accumulator of the source is write-only and does not affect
the result. -/
def children_distribution_per : Nat → List Spouse → List PerSpouse
  | _, [] => []
  | idx, sp :: rest =>
    let name := if truthyStr sp.name then sp.name.getD "" else "Spouse " ++ toString idx
    let row : PerSpouse :=
      if !(collect_spouse_children_hn sp).isEmpty then
        ⟨idx, name, ((collect_spouse_children_hn sp).length : Int), "declared_list"⟩
      else
        match sp.children_count with
        | some n => ⟨idx, name, n, "declared_count"⟩
        | none =>
          match sp.children with
          | some l => ⟨idx, name, (l.length : Int), "spouse_children_list"⟩
          | none => ⟨idx, name, 0, "unknown"⟩
    row :: children_distribution_per (idx + 1) rest

/-- `_children_distribution` (used only by the disabled Q&A block). -/
def children_distribution (p : Person) : Distribution :=
  { marriages_count := p.spouses.length
    total_children := p.children.length
    per_spouse := children_distribution_per 1 p.spouses
    outside_count :=
      match p.outside_children_henry_numbers with
      | some l =>
        if !l.isEmpty then
          some (((l.map pyStrip).filter (fun s => !s.isEmpty)).dedup.length)
        else none
      | none => none }

/-- `_format_qna_pt` (used only by the disabled Q&A block). -/
def format_qna_pt (p : Person) (dist : Distribution) : String :=
  let indent_base := tabs (count_dots (p.henry_number.getD "") + 1)
  let l1 := indent_base ++ "Quantos casamentos teve? " ++
    (if dist.marriages_count = 0 then "Nenhum" else toString dist.marriages_count)
  let l2 := indent_base ++ "Teve filhos? " ++
    (if dist.total_children > 0 then "Sim" else "Não (sem registros de filhos encontrados)")
  let l3 :=
    match dist.outside_count with
    | none => indent_base ++ "Foi fora do casamento? Não há registros que indiquem filhos fora do casamento."
    | some o => indent_base ++ "Foi fora do casamento? " ++ (if o > 0 then "Sim" else "Não")
  let distLines :=
    if dist.marriages_count > 0 then
      [indent_base ++ "Distribuição por casamento:"] ++
      dist.per_spouse.map (fun it =>
        indent_base ++ "- " ++ toString it.index ++ "º casamento: " ++ toString it.count) ++
      (match dist.outside_count with
       | some o => [indent_base ++ "- Fora do casamento: " ++ toString o]
       | none => [])
    else []
  String.intercalate "\n" ([l1, l2, l3] ++ distLines)

/-- The `parts` list assembled by `build_biography` before joining: birth
clause, relationship block (unified absence sentence or per-spouse blocks),
then the death block or the applicable death-absence sentence. The `Bool`
paired with the relationship block is `added_unified_absence`. -/
def biography_parts (today : PyDate) (p : Person) : Except String (List String) := do
  let P := pronouns p.sex
  let first ← format_birth_parents p P
  let rel ←
    if p.spouses.isEmpty && p.children.isEmpty then
      if !has_death_info p then
        pure (["No records of marriage, children or death have been found to date."], true)
      else
        pure (["No records of marriage or children have been found to date."], false)
    else do
      let blocks ← spouse_blocks p P p.spouses.length 1 p.spouses
      pure (blocks, false)
  let entries ← collect_death_entries p
  let deathParts :=
    if !entries.isEmpty then [death_block entries]
    else
      let today_str := format_date today
      if !p.spouses.isEmpty then
        let all_names := safe_name p.name :: p.spouses.map (fun sp => safe_name sp.name)
        let needs_asof := is_100_plus_without_death today p.entry ||
          p.spouses.any (fun sp => is_100_plus_without_death today sp.entry)
        let tail := if needs_asof then " as of " ++ today_str ++ "." else "."
        if all_names.length = 2 then
          ["No records of death have been found to date for " ++ all_names.headD "" ++
            " and " ++ all_names.getLastD "" ++ tail]
        else
          ["No records of death have been found to date for " ++
            String.intercalate ", " all_names.dropLast ++ ", and " ++ all_names.getLastD "" ++ tail]
      else
        if !has_death_info p && !rel.2 then
          if is_100_plus_without_death today p.entry then
            ["No records of death have been found to date as of " ++ today_str ++ "."]
          else
            ["No records of death have been found to date."]
        else []
  return [first] ++ rel.1 ++ deathParts

/-- `build_biography` for a dict-shaped record (the batch driver filters out
non-dict entries before calling it): header, blank line, clause text joined
by single spaces, optional descendant list. `date.today()` is threaded as
`today`. -/
def build_biography (today : PyDate) (p : Person) : Except String String := do
  let name := safe_name p.name
  let henry := p.henry_number.getD ""
  let header := tabs (count_dots henry) ++ henry ++ " " ++ name
  let parts ← biography_parts today p
  let children_block := format_children_list p.children
  let main_text := String.intercalate " " ((parts.map pyStrip).filter (fun s => !s.isEmpty))
  let body :=
    if !children_block.isEmpty then
      let first_child := p.children.headD {}
      let li0 := indent_from_henry (first_child.henry_number.getD "")
      let label_indent := if li0.isEmpty then tabs (count_dots henry + 1) else li0
      main_text ++ "\n\n" ++ label_indent ++ "Their children were:\n\n" ++ children_block
    else main_text
  let body :=
    if ENABLE_QNA_SUMMARY_PT then
      let qna := format_qna_pt p (children_distribution p)
      if !(pyStrip qna).isEmpty then body ++ "\n\n" ++ qna else body
    else body
  return header ++ "\n\n" ++ body

/-- A record yielded by the batch iterators: either not a JSON object, or a
person dict. -/
inductive RawRecord where
  | notDict
  | dict (p : Person)

/-- The per-record step of `emit_bios` (`bio_batch_jsonl.py`, lines
115-140), up to the emission targets: validation of shape and of the two
required fields, then biography generation with its exception guard. The
state is `(processed, skipped)`; strict mode aborts by raising
`RuntimeError(msg)` (the `Except.error`), lenient mode logs `msg`, counts
the skip and continues; a successful record returns its biography text. -/
def emit_step (today : PyDate) (strict : Bool) (stats : Nat × Nat)
    (rec : RawRecord) (ctx : String) : Except String ((Nat × Nat) × Option String) :=
  match rec with
  | .notDict =>
    let msg := ctx ++ ": entry is not a JSON object"
    if strict then Except.error msg else Except.ok ((stats.1, stats.2 + 1), none)
  | .dict person =>
    if !truthyStr person.henry_number || !truthyStr person.name then
      let msg := ctx ++ ": missing 'henry_number' or 'name'"
      if strict then Except.error msg else Except.ok ((stats.1, stats.2 + 1), none)
    else
      match build_biography today person with
      | Except.error exc =>
        let msg := ctx ++ ": error generating biography: " ++ exc
        if strict then Except.error msg else Except.ok ((stats.1, stats.2 + 1), none)
      | Except.ok bio => Except.ok ((stats.1 + 1, stats.2), some bio)




/-! Concrete records used by witnesses and counterexamples. -/

/-- A marriage carrying only an explicit `children_henry_numbers` list. -/
def c1_spouse : Spouse := { name := some "Jane Roe", children_henry_numbers := some ["1.1", "1.2"] }

def c1_person : Person := {}

/-- A subject with one child whose surname is phonetically equal to, but
spelled differently from, the spouse's surname. -/
def c2_person : Person := { children := [ { name := some "John Muncey" } ] }

def c2_spouse : Spouse := { name := some "Jane Muncy" }

def c6_person : Person := { name := some "John Doe", birth := some { date := some "1900" } }

/-- A spouse / subject with a year-month birth date and a birth place. -/
def c10_spouse : Spouse :=
  { name := some "Mary Ann", birth := some { date := some "1900-03", place := some "Kent" } }

def c10_person : Person :=
  { name := some "Mary Ann", birth := some { date := some "1900-03", place := some "Kent" } }

/-- A subject born in 1845 (year only), one spouse, no death records:
both count as 100+ without death as of any modern date. -/
def c7_person : Person :=
  { henry_number := some "1"
    name := some "Adam Fox"
    birth := some { date := some "1845" }
    spouses := [ { name := some "Beth Fox" } ] }

/-- A subject and two spouses with death data: two full death dates and one
year-only (hence unsortable) death date. -/
def c5_person : Person :=
  { name := some "Ann Roe"
    death := some { date := some "1950-01-01" }
    spouses := [ { name := some "Bob Roe"
                   death := some { date := some "1910-05-05" } },
                 { name := some "Cal Roe"
                   death := some { date := some "1900" } } ] }

/-! Helper lemmas. -/

theorem str_append_ne_empty_left (s t : String) (h : ¬s = "") : ¬(s ++ t) = "" := by
  intro he
  apply h
  have hd := congrArg String.data he
  rw [String.data_append] at hd
  rcases List.append_eq_nil.mp hd with ⟨h1, -⟩
  cases s
  simp_all

theorem safe_name_ne_empty (n : Option String) : ¬safe_name n = "" := by
  cases n with
  | none => decide
  | some s =>
    simp only [safe_name, safe_name_fb]
    split
    · decide
    · rename_i hne
      intro he
      rw [he] at hne
      exact hne (by decide)


/-- C1 counterexample: a marriage whose only child-attribution signal is a
non-empty `children_henry_numbers` list of two distinct entries. The claim
predicts a count of 2 (the deduplicated list size, winning over every other
rule); the effective inferencer never reads that list, falls through to the
surname heuristic and returns 0. -/
theorem c1_counterexample :
    infer_children_for_spouse c1_person c1_spouse = 0 ∧
    ((collect_spouse_children_hn c1_spouse).length : Int) = 2 ∧
    ¬infer_children_for_spouse c1_person c1_spouse =
      ((collect_spouse_children_hn c1_spouse).length : Int) := by
  decide

/-- C1 amended: the per-marriage child count is computed by the second,
effective `_infer_children_for_spouse`, which ignores
`children_henry_numbers` entirely (changing that field never changes the
count); an explicit integer `children_count` takes top priority, then a
non-empty embedded `children` list contributes its length. -/
theorem c1_amended_count_priority :
    ∀ (p : Person) (sp : Spouse) (l : Option (List String)) (n : Int) (cl : List ChildRef),
      infer_children_for_spouse p { sp with children_henry_numbers := l } =
        infer_children_for_spouse p sp ∧
      (sp.children_count = some n → infer_children_for_spouse p sp = n) ∧
      (sp.children_count = none → sp.children = some cl → ¬cl = [] →
        infer_children_for_spouse p sp = (cl.length : Int)) := by
  intro p sp l n cl
  refine ⟨rfl, fun h => by simp [infer_children_for_spouse, h], fun h1 h2 h3 => ?_⟩
  have hne : cl.isEmpty = false := by
    cases cl
    · exact absurd rfl h3
    · rfl
  simp [infer_children_for_spouse, h1, h2, hne]

/-- C1 witness: the amended theorem applied at concrete marriage records,
exercising the count rule and the embedded-list rule. -/
theorem c1_amended_count_priority_witness :
    infer_children_for_spouse c1_person { c1_spouse with children_count := some 5 } = 5 ∧
    infer_children_for_spouse c1_person
      { c1_spouse with children := some [{ name := some "Kim Roe" }] } = 1 :=
  ⟨(c1_amended_count_priority c1_person { c1_spouse with children_count := some 5 }
      (some ["1.1"]) 5 []).2.1 rfl,
   (c1_amended_count_priority c1_person
      { c1_spouse with children := some [{ name := some "Kim Roe" }] }
      (some ["1.1"]) 5 [{ name := some "Kim Roe" }]).2.2 rfl rfl (by decide)⟩

/-- C2 counterexample: spouse `Jane Muncy`, subject child `John Muncey`, no
explicit attribution signals. The surnames have equal Soundex keys, so the
claim predicts a count of 1; the effective inferencer compares lower-cased
spellings for equality and returns 0. -/
theorem c2_counterexample :
    infer_children_for_spouse c2_person c2_spouse = 0 ∧
    soundex_match_count c2_person c2_spouse = 1 ∧
    surname_key (some "Jane Muncy") = surname_key (some "John Muncey") ∧
    ¬infer_children_for_spouse c2_person c2_spouse = soundex_match_count c2_person c2_spouse := by
  decide

/-- C2 amended: for a marriage with no explicit child-attribution signal the
inferred count equals the number of the subject's children whose surname
(last whitespace token, stripped of commas/periods/spaces) equals the
spouse's surname after ASCII lower-casing — exact spelling match, not a
phonetic one. -/
theorem c2_amended_exact_surname_match :
    ∀ (p : Person) (sp : Spouse),
      sp.children_count = none →
      (sp.children.getD []).isEmpty = true →
      infer_children_for_spouse p sp =
        (if (last_token sp.name).isEmpty then 0
         else ((p.children.countP (fun ch =>
            !(last_token (some (ch.name.getD ""))).isEmpty &&
            pyLower (last_token sp.name) == pyLower (last_token (some (ch.name.getD ""))))) : Int)) := by
  intro p sp h1 h2
  simp only [infer_children_for_spouse, h1, h2, List.countP_eq_length_filter, Bool.not_true,
    Bool.false_eq_true, if_false]

/-- C2 witness: the amended theorem applied at the Muncy/Muncey records. -/
theorem c2_amended_exact_surname_match_witness :
    infer_children_for_spouse c2_person c2_spouse =
      (if (last_token c2_spouse.name).isEmpty then 0
       else ((c2_person.children.countP (fun ch =>
          !(last_token (some (ch.name.getD ""))).isEmpty &&
          pyLower (last_token c2_spouse.name) == pyLower (last_token (some (ch.name.getD ""))))) : Int)) :=
  c2_amended_exact_surname_match c2_person c2_spouse rfl rfl

/-- C3: the date string `1845-13` parses to year 1845 with month 13, and
rendering it raises an uncaught `IndexError` from the month-table lookup of
the `YYYY-MM` branch — while the `YYYY-MM-DD` branch catches the same
out-of-range month (`1845-13-01` degrades to the year string). So date
rendering is not exception-free, contradicting the no-exceptions rule. -/
theorem c3_month_out_of_range_raises :
    format_when_iso (some "1845-13") = Except.error "IndexError" ∧
    parse_partial_iso (some "1845-13") = (some 1845, some 13, none) ∧
    format_when_iso (some "1845-13-01") = Except.ok (some "1845") :=
  ⟨rfl, rfl, rfl⟩

/-- C6 counterexample: a year-only birth date is rendered with "on", not
"in": the subject born `1900` gets "was born on 1900", while the claim
predicts "was born in 1900". -/
theorem c6_counterexample :
    format_birth_parents c6_person (pronouns none) = Except.ok "John Doe was born on 1900." ∧
    ¬format_birth_parents c6_person (pronouns none) = Except.ok "John Doe was born in 1900." := by
  have h1 : format_birth_parents c6_person (pronouns none) =
      Except.ok "John Doe was born on 1900." := rfl
  refine ⟨h1, fun h => ?_⟩
  rw [h1] at h
  exact absurd (Except.ok.inj h) (by decide)


theorem exists_suffix_append (pre x tail : String) (h : ∃ r, x = pre ++ r) :
    ∃ r, x ++ tail = pre ++ r := by
  rcases h with ⟨r, hr⟩
  exact ⟨r ++ tail, by rw [hr, String.append_assoc]⟩

/-- C6 amended: whenever the subject's birth date renders (year-only,
year-month, or full), the birth clause uses "on {rendered date}" — the
"in {year}" form for year-only dates never occurs — followed by
", in {place}" when a birth place is present. -/
theorem c6_amended_on_phrase :
    ∀ (p : Person) (P : Pronouns) (w res : String),
      format_when_iso ((p.birth.getD {}).date) = Except.ok (some w) →
      ¬w = "" →
      format_birth_parents p P = Except.ok res →
      (∃ rest, res = safe_name p.name ++ " was born on " ++ w ++ rest) ∧
      (truthyStr ((p.birth.getD {}).place) = true →
        ∃ rest, res = safe_name p.name ++ " was born on " ++ w ++ ", in " ++
          ((p.birth.getD {}).place.getD "") ++ rest) := by
  intro p P w res hw hne hres
  have hwe : w.isEmpty = false := by
    cases hh : w.isEmpty
    · rfl
    · exact absurd ((String.isEmpty_iff w).mp hh) hne
  have hlit : (" was born" : String) ++ " on " = " was born on " := rfl
  have hmerge : (safe_name p.name ++ " was born") ++ " on " =
      safe_name p.name ++ " was born on " := by
    rw [String.append_assoc, hlit]
  have baseP : safe_name p.name ++ " was born" ++ " on " ++ w =
      safe_name p.name ++ " was born on " ++ w := congrArg (· ++ w) hmerge
  have base2 : safe_name p.name ++ " was born" ++ " on " ++ w ++ ", in " ++
      ((p.birth.getD {}).place.getD "") =
      safe_name p.name ++ " was born on " ++ w ++ ", in " ++
        ((p.birth.getD {}).place.getD "") := by
    rw [baseP]
  simp only [format_birth_parents, hw, Bind.bind, Except.bind, truthyStr, Option.getD_some,
    hwe, Bool.not_false, Bool.true_and, pure, Except.pure] at hres
  by_cases hp : ((p.birth.getD {}).place.getD "").isEmpty
  · have hnope : ¬truthyStr ((p.birth.getD {}).place) = true := by
      simp [truthyStr, hp]
    refine ⟨?_, fun hpt => absurd hpt hnope⟩
    simp only [hp, Bool.and_false, Bool.false_eq_true, if_false, Bool.not_true, if_true] at hres
    split at hres <;>
    · have hr := (Except.ok.inj hres).symm
      subst hr
      repeat
        first
        | (refine ⟨"", ?_⟩
           rw [String.append_empty]
           exact baseP)
        | apply exists_suffix_append
  · simp only [hp, Bool.and_true, Bool.not_false, if_true] at hres
    constructor
    · split at hres <;>
      · have hr := (Except.ok.inj hres).symm
        subst hr
        repeat
          first
          | (refine ⟨"", ?_⟩
             rw [String.append_empty]
             exact baseP)
          | apply exists_suffix_append
    · intro hpt
      split at hres <;>
      · have hr := (Except.ok.inj hres).symm
        subst hr
        repeat
          first
          | (refine ⟨"", ?_⟩
             rw [String.append_empty]
             exact base2)
          | apply exists_suffix_append

/-- C6 witness: the amended theorem applied at the year-only record. -/
theorem c6_amended_on_phrase_witness :
    ∃ rest, "John Doe was born on 1900." =
      safe_name c6_person.name ++ " was born on " ++ "1900" ++ rest :=
  (c6_amended_on_phrase c6_person (pronouns none) "1900" "John Doe was born on 1900."
    rfl (by decide) rfl).1

/-- C8: a dict-shaped record lacking a non-empty `henry_number` or a
non-empty `name` is reported as a validation failure by the batch step:
strict mode aborts with a `RuntimeError` carrying the record's location,
lenient mode increments the skipped counter (logging the same message) and
emits no biography; the record is never processed silently. -/
theorem c8_missing_fields_reported :
    ∀ (today : PyDate) (stats : Nat × Nat) (p : Person) (ctx : String),
      truthyStr p.henry_number = false ∨ truthyStr p.name = false →
      emit_step today true stats (RawRecord.dict p) ctx =
        Except.error (ctx ++ ": missing 'henry_number' or 'name'") ∧
      emit_step today false stats (RawRecord.dict p) ctx =
        Except.ok ((stats.1, stats.2 + 1), none) := by
  intro today stats p ctx h
  have hcond : (!truthyStr p.henry_number || !truthyStr p.name) = true := by
    rcases h with h | h <;> simp [h]
  constructor <;> simp [emit_step, hcond]

/-- C8 witness: the empty record at a concrete location, strict mode. -/
theorem c8_missing_fields_reported_witness :
    emit_step ⟨2026, 10, 12⟩ true (0, 0) (RawRecord.dict {}) "people.jsonl:1" =
      Except.error ("people.jsonl:1" ++ ": missing 'henry_number' or 'name'") :=
  (c8_missing_fields_reported ⟨2026, 10, 12⟩ (0, 0) {} "people.jsonl:1" (Or.inl rfl)).1

/-- C10: the spouse-intro sentence renders the spouse's birth date only when
`_parse_ymd` accepts it as a full valid `YYYY-MM-DD`; with a partial date the
intro omits the date but keeps the place. The subject's own birth clause, in
contrast, renders the same partial date (`1900-03` → "March 1900"). -/
theorem c10_spouse_intro_full_date_only :
    (∀ (sp : Spouse) (P : Pronouns) (idx total : Nat),
      parse_ymd ((sp.birth.getD {}).date) = none →
      spouse_intro sp P idx total =
        (if total = 1 then pyCapitalize P.poss ++ " spouse was " ++ safe_name sp.name
         else pyCapitalize P.poss ++ " " ++ ordinal idx ++ " spouse was " ++ safe_name sp.name) ++
        (if truthyStr ((sp.birth.getD {}).place) = true
         then ", who was born in " ++ ((sp.birth.getD {}).place.getD "") ++ "."
         else ".")) ∧
    spouse_intro c10_spouse (pronouns (some "M")) 1 1 =
      "His spouse was Mary Ann, who was born in Kent." ∧
    format_birth_parents c10_person (pronouns none) =
      Except.ok "Mary Ann was born on March 1900, in Kent." := by
  refine ⟨?_, rfl, rfl⟩
  intro sp P idx total h
  have htn : truthyStr none = false := rfl
  simp only [spouse_intro, h, Option.map_none', htn, Bool.false_and, Bool.false_eq_true, if_false]
  split <;> split <;> simp only [String.append_assoc]

/-- C10 witness: the universal part applied at the year-month record. -/
theorem c10_spouse_intro_full_date_only_witness :
    spouse_intro c10_spouse (pronouns (some "M")) 1 1 =
      (if 1 = 1 then
        pyCapitalize (pronouns (some "M")).poss ++ " spouse was " ++ safe_name c10_spouse.name
       else
        pyCapitalize (pronouns (some "M")).poss ++ " " ++ ordinal 1 ++ " spouse was " ++
          safe_name c10_spouse.name) ++
      (if truthyStr ((c10_spouse.birth.getD {}).place) = true
       then ", who was born in " ++ ((c10_spouse.birth.getD {}).place.getD "") ++ "."
       else ".") :=
  c10_spouse_intro_full_date_only.1 c10_spouse (pronouns (some "M")) 1 1 rfl

/-- A successful `_parse_ymd` forces `_parse_partial_iso` to see the same
(nonzero) year, so the truthiness guard of `_age_on_partial_iso` passes. -/
theorem parse_ymd_parse_partial_iso (s : Option String) (d : PyDate)
    (h : parse_ymd s = some d) :
    (parse_partial_iso s).1 = some d.year ∧ 1 ≤ d.year := by
  cases s with
  | none => simp [parse_ymd] at h
  | some str =>
    simp only [parse_ymd] at h
    by_cases hemp : str.isEmpty = true
    · rw [if_pos hemp] at h
      cases h
    · rw [if_neg hemp] at h
      rcases hsp : pySplitDash str with - | ⟨a, - | ⟨b, - | ⟨c, - | ⟨e, rest⟩⟩⟩⟩ <;>
        rw [hsp] at h <;> dsimp only at h
      · cases h
      · cases h
      · cases h
      · split at h
        · rename_i y m dd hya hyb hyc
          unfold mkDate at h
          split at h
          · rename_i hcond
            injection h with h2
            subst h2
            refine ⟨?_, by exact_mod_cast hcond.1⟩
            simp only [parse_partial_iso]
            rw [if_neg hemp, hsp]
            simp only [hya, hyb, hyc]
          · cases h
        · cases h
      · cases h

/-- The month-only adjustment of `_age_on_partial_iso`, restated with
propositional conditions. -/
theorem ite_age_adjust (bm em : Option Int) (age : Int) :
    (if truthyInt bm && truthyInt em && decide (em.getD 0 < bm.getD 0) then age - 1 else age) =
    age - (if truthyInt bm = true ∧ truthyInt em = true ∧ em.getD 0 < bm.getD 0 then 1 else 0) := by
  by_cases hc : (truthyInt bm && truthyInt em && decide (em.getD 0 < bm.getD 0)) = true
  · rw [if_pos hc]
    simp only [Bool.and_eq_true, decide_eq_true_eq] at hc
    rw [if_pos ⟨hc.1.1, hc.1.2, hc.2⟩]
  · rw [if_neg hc]
    have hc2 : ¬(truthyInt bm = true ∧ truthyInt em = true ∧ em.getD 0 < bm.getD 0) := by
      intro hand
      apply hc
      simp only [Bool.and_eq_true, decide_eq_true_eq]
      exact ⟨⟨hand.1, hand.2.1⟩, hand.2.2⟩
    rw [if_neg hc2]
    omega

/-- C9: the age computation. (1) If either side lacks a (nonzero) year the
result is (no age, approximate=false). (2) If both sides parse as full valid
dates, the age is the exact year difference, decremented when the event's
(month, day) precedes the birth's, with approximate=false. (3) Otherwise the
age is the coarse year difference, decremented by one exactly when both
sides carry a (nonzero) month and the event's month is strictly earlier,
with approximate=true. Concretely: birth 1845 / event 1865-01-22 gives
(about 20, approximate); birth 1845-10-09 / event 1865-01-22 gives exactly
19. -/
theorem c9_age_rules :
    (∀ b e : Option String,
       truthyInt (parse_partial_iso b).1 = false ∨ truthyInt (parse_partial_iso e).1 = false →
       age_on_partial_iso b e = (none, false)) ∧
    (∀ (b e : Option String) (db de : PyDate),
       parse_ymd b = some db → parse_ymd e = some de →
       age_on_partial_iso b e =
         (some (de.year - db.year -
           (if de.month < db.month ∨ (de.month = db.month ∧ de.day < db.day) then 1 else 0)),
          false)) ∧
    (∀ b e : Option String,
       truthyInt (parse_partial_iso b).1 = true → truthyInt (parse_partial_iso e).1 = true →
       (parse_ymd b = none ∨ parse_ymd e = none) →
       age_on_partial_iso b e =
         (some ((parse_partial_iso e).1.getD 0 - (parse_partial_iso b).1.getD 0 -
           (if truthyInt (parse_partial_iso b).2.1 = true ∧ truthyInt (parse_partial_iso e).2.1 = true ∧
               (parse_partial_iso e).2.1.getD 0 < (parse_partial_iso b).2.1.getD 0 then 1 else 0)),
          true)) ∧
    age_on_partial_iso (some "1845") (some "1865-01-22") = (some 20, true) ∧
    age_on_partial_iso (some "1845-10-09") (some "1865-01-22") = (some 19, false) := by
  refine ⟨?_, ?_, ?_, rfl, rfl⟩
  · intro b e h
    rcases h with h | h <;> simp [age_on_partial_iso, h]
  · intro b e db de hb he
    obtain ⟨hby, hb1⟩ := parse_ymd_parse_partial_iso b db hb
    obtain ⟨hey, he1⟩ := parse_ymd_parse_partial_iso e de he
    have tb : truthyInt (parse_partial_iso b).1 = true := by
      rw [hby]; simp [truthyInt]; omega
    have te : truthyInt (parse_partial_iso e).1 = true := by
      rw [hey]; simp [truthyInt]; omega
    simp only [age_on_partial_iso, tb, te, Bool.not_true, Bool.or_self, Bool.false_eq_true,
      if_false, hb, he]
    simp only [age_on_exact]
    split
    · rfl
    · norm_num
  · intro b e tb te hor
    have hnot : (!truthyInt (parse_partial_iso b).1 || !truthyInt (parse_partial_iso e).1) = false := by
      simp [tb, te]
    simp only [age_on_partial_iso, hnot, Bool.false_eq_true, if_false]
    rcases hpb : parse_ymd b with - | db <;> rcases hpe : parse_ymd e with - | de <;>
      dsimp only <;>
      first
      | rw [ite_age_adjust]
      | (rcases hor with h | h <;> simp_all)

/-- C9 witness: the three rules applied at concrete date strings. -/
theorem c9_age_rules_witness :
    age_on_partial_iso none (some "1900") = (none, false) ∧
    age_on_partial_iso (some "1845-10-09") (some "1865-01-22") =
      (some ((PyDate.mk 1865 1 22).year - (PyDate.mk 1845 10 9).year -
        (if (PyDate.mk 1865 1 22).month < (PyDate.mk 1845 10 9).month ∨
            ((PyDate.mk 1865 1 22).month = (PyDate.mk 1845 10 9).month ∧
             (PyDate.mk 1865 1 22).day < (PyDate.mk 1845 10 9).day) then 1 else 0)), false) ∧
    age_on_partial_iso (some "1845-10") (some "1865-01-22") =
      (some ((parse_partial_iso (some "1865-01-22")).1.getD 0 -
          (parse_partial_iso (some "1845-10")).1.getD 0 -
        (if truthyInt (parse_partial_iso (some "1845-10")).2.1 = true ∧
            truthyInt (parse_partial_iso (some "1865-01-22")).2.1 = true ∧
            (parse_partial_iso (some "1865-01-22")).2.1.getD 0 <
              (parse_partial_iso (some "1845-10")).2.1.getD 0
         then 1 else 0)), true) :=
  ⟨c9_age_rules.1 none (some "1900") (Or.inl rfl),
   c9_age_rules.2.1 (some "1845-10-09") (some "1865-01-22") ⟨1845, 10, 9⟩ ⟨1865, 1, 22⟩ rfl rfl,
   c9_age_rules.2.2.1 (some "1845-10") (some "1865-01-22") rfl rfl (Or.inl rfl)⟩

theorem isEmpty_empty_string : ("" : String).isEmpty = true := rfl

/-- An entry with neither a death date nor a death place (both falsy)
produces no death sentence. -/
theorem death_sentence_no_info (e : Entry) (P : Pronouns)
    (h : has_death_info_ev e.death = false) :
    death_sentence e P = Except.ok none := by
  obtain ⟨nm, sx, bi, de, bu⟩ := e
  rcases de with - | ⟨dt, pl⟩
  · rfl
  · simp only [has_death_info_ev, Bool.or_eq_false_iff] at h
    obtain ⟨h1, h2⟩ := h
    rcases dt with - | s
    · rcases pl with - | p
      · rfl
      · simp only [truthyStr, Option.getD_some, Bool.not_eq_false'] at h2
        simp [death_sentence, format_when_iso, parse_partial_iso, truthyStr, truthyInt, h2,
          Bind.bind, Except.bind, pure, Except.pure, isEmpty_empty_string]
    · simp only [truthyStr, Option.getD_some, Bool.not_eq_false'] at h1
      rcases pl with - | p
      · simp [death_sentence, format_when_iso, parse_partial_iso, truthyStr, truthyInt, h1,
          Bind.bind, Except.bind, pure, Except.pure, isEmpty_empty_string]
      · simp only [truthyStr, Option.getD_some, Bool.not_eq_false'] at h2
        simp [death_sentence, format_when_iso, parse_partial_iso, truthyStr, truthyInt, h1, h2,
          Bind.bind, Except.bind, pure, Except.pure, isEmpty_empty_string]

/-- An entry with no death info contributes the empty tuple. -/
theorem death_tuple_no_info (e : Entry)
    (h : has_death_info_ev e.death = false) :
    death_tuple e = Except.ok (none, "") := by
  rw [death_tuple, death_sentence_no_info e (pronouns e.sex) h]
  obtain ⟨nm, sx, bi, de, bu⟩ := e
  rcases de with - | ⟨dt, pl⟩
  · rfl
  · simp only [has_death_info_ev, Bool.or_eq_false_iff] at h
    rcases dt with - | s
    · rfl
    · obtain ⟨h1, -⟩ := h
      simp only [truthyStr, Option.getD_some, Bool.not_eq_false'] at h1
      simp [parse_ymd, h1, Bind.bind, Except.bind, pure, Except.pure]

theorem intercalate_singleton (s x : String) : String.intercalate s [x] = x := rfl

/-- With no spouses, the collected death entries are the subject's tuple
when its sentence is non-empty, else nothing. -/
theorem collect_death_entries_eq (p : Person) (t : Option PyDate × String)
    (hsp : p.spouses = []) (hdt : death_tuple (Person.entry p) = Except.ok t) :
    collect_death_entries p = Except.ok (if t.2.isEmpty then [] else [t]) := by
  simp [collect_death_entries, hdt, hsp, spouse_death_tuples, Bind.bind, Except.bind,
    pure, Except.pure]
  split <;> simp

/-- C4: for a subject with no spouses and no children, exactly one absence
sentence appears. With no death data the parts are exactly the birth clause
followed by the single merged sentence "No records of marriage, children or
death have been found to date." — not two separate absence sentences. With
death data the parts are the birth clause, the "No records of marriage or
children..." sentence, and the death sentence when one renders — so the
variants are mutually exclusive, one per biography. -/
theorem c4_absence_unification :
    ∀ (today : PyDate) (p : Person) (b : String),
      p.spouses = [] → p.children = [] →
      format_birth_parents p (pronouns p.sex) = Except.ok b →
      (has_death_info p = false →
        biography_parts today p =
          Except.ok [b, "No records of marriage, children or death have been found to date."]) ∧
      (∀ t, has_death_info p = true → death_tuple (Person.entry p) = Except.ok t →
        biography_parts today p =
          Except.ok ([b, "No records of marriage or children have been found to date."] ++
            (if t.2.isEmpty then [] else [t.2]))) := by
  intro today p b hsp hch hb
  constructor
  · intro hnd
    have hdt : death_tuple (Person.entry p) = Except.ok ((none : Option PyDate), "") :=
      death_tuple_no_info (Person.entry p) hnd
    have hcol := collect_death_entries_eq p (none, "") hsp hdt
    simp only [String.isEmpty, if_pos] at hcol
    simp [biography_parts, hb, hsp, hch, hnd, hcol, Bind.bind, Except.bind, pure, Except.pure]
  · intro t hd hdt
    have hcol := collect_death_entries_eq p t hsp hdt
    by_cases ht : t.2.isEmpty
    · simp only [ht, if_true] at hcol
      simp [biography_parts, hb, hsp, hch, hd, hcol, ht, Bind.bind, Except.bind,
        pure, Except.pure]
    · simp only [ht, if_false] at hcol
      simp [biography_parts, hb, hsp, hch, hd, hcol, ht, Bind.bind, Except.bind,
        pure, Except.pure, death_block, sort_death_entries, intercalate_singleton]

/-- C7 counterexample: subject born 1845 with a spouse and no death data.
The merged sentence is emitted with " as of 12 October 2026." appended
after the last name, so the claim's fixed form "...for {name1} and {name2}"
with no additional text is violated. -/
theorem c7_counterexample :
    biography_parts ⟨2026, 10, 12⟩ c7_person = Except.ok
      ["Adam Fox was born on 1845.", "Their spouse was Beth Fox.", "",
       "No records of death have been found to date for Adam Fox and Beth Fox as of 12 October 2026."] ∧
    ¬"No records of death have been found to date for Adam Fox and Beth Fox as of 12 October 2026." =
      "No records of death have been found to date for Adam Fox and Beth Fox." :=
  ⟨rfl, by decide⟩

/-- C7 amended: with at least one spouse and no collected death sentences,
the death block is exactly one merged sentence listing the subject and all
spouses ("X and Y" for two names, comma-separated with ", and Z" for more),
ending with "." — except that when the subject or any spouse is 100+ years
old (by birth year) without death records, " as of {today}." is appended. -/
theorem c7_amended_death_absence_merged :
    ∀ (today : PyDate) (p : Person) (b : String) (blocks : List String),
      ¬p.spouses = [] →
      format_birth_parents p (pronouns p.sex) = Except.ok b →
      spouse_blocks p (pronouns p.sex) p.spouses.length 1 p.spouses = Except.ok blocks →
      collect_death_entries p = Except.ok [] →
      biography_parts today p = Except.ok ([b] ++ blocks ++
        [(if (safe_name p.name :: p.spouses.map (fun sp => safe_name sp.name)).length = 2 then
            "No records of death have been found to date for " ++
              (safe_name p.name :: p.spouses.map (fun sp => safe_name sp.name)).headD "" ++
              " and " ++
              (safe_name p.name :: p.spouses.map (fun sp => safe_name sp.name)).getLastD "" ++
              (if (is_100_plus_without_death today p.entry ||
                  p.spouses.any (fun sp => is_100_plus_without_death today sp.entry)) = true
               then " as of " ++ format_date today ++ "." else ".")
          else
            "No records of death have been found to date for " ++
              String.intercalate ", "
                (safe_name p.name :: p.spouses.map (fun sp => safe_name sp.name)).dropLast ++
              ", and " ++
              (safe_name p.name :: p.spouses.map (fun sp => safe_name sp.name)).getLastD "" ++
              (if (is_100_plus_without_death today p.entry ||
                  p.spouses.any (fun sp => is_100_plus_without_death today sp.entry)) = true
               then " as of " ++ format_date today ++ "." else "."))]) := by
  intro today p b blocks hsp hb hblocks hcol
  have hne : p.spouses.isEmpty = false := by
    cases hs : p.spouses
    · exact absurd hs hsp
    · rfl
  simp [biography_parts, hb, hblocks, hcol, hne, Bind.bind, Except.bind, pure, Except.pure]
  split <;> rfl

/-- C4 witness: the all-empty record, concrete date. -/
theorem c4_absence_unification_witness :
    biography_parts ⟨2026, 10, 12⟩ ({} : Person) =
      Except.ok ["Unknown was born.",
        "No records of marriage, children or death have been found to date."] :=
  (c4_absence_unification ⟨2026, 10, 12⟩ {} "Unknown was born." rfl rfl rfl).1 rfl

/-- C7 witness: the amended theorem applied at the 1845-born subject. -/
theorem c7_amended_death_absence_merged_witness :
    biography_parts ⟨2026, 10, 12⟩ c7_person = Except.ok
      ["Adam Fox was born on 1845.", "Their spouse was Beth Fox.", "",
       "No records of death have been found to date for Adam Fox and Beth Fox as of 12 October 2026."] :=
  c7_amended_death_absence_merged ⟨2026, 10, 12⟩ c7_person "Adam Fox was born on 1845."
    ["Their spouse was Beth Fox.", ""] (by decide) rfl rfl rfl

/-- `date` comparison is transitive. -/
theorem dateLE_trans (a b c : PyDate) (h1 : dateLE a b = true) (h2 : dateLE b c = true) :
    dateLE a c = true := by
  simp only [dateLE, decide_eq_true_eq] at h1 h2 ⊢
  omega

/-- `date` comparison is total. -/
theorem dateLE_total (a b : PyDate) : (dateLE a b || dateLE b a) = true := by
  simp only [dateLE, Bool.or_eq_true, decide_eq_true_eq]
  omega

/-- The Python sort key order is transitive. -/
theorem entryLE_trans (a b c : Option PyDate × String)
    (h1 : entryLE a b = true) (h2 : entryLE b c = true) : entryLE a c = true := by
  rcases a with ⟨da, sa⟩
  rcases b with ⟨db, sb⟩
  rcases c with ⟨dc, sc⟩
  rcases da with - | da <;> rcases db with - | db <;> rcases dc with - | dc <;>
    simp_all [entryLE] <;>
    (try exact dateLE_trans _ _ _ h1 h2)

/-- The Python sort key order is total. -/
theorem entryLE_total (a b : Option PyDate × String) :
    (entryLE a b || entryLE b a) = true := by
  rcases a with ⟨da, sa⟩
  rcases b with ⟨db, sb⟩
  rcases da with - | da <;> rcases db with - | db <;> simp_all [entryLE] <;>
    (first
      | simpa using dateLE_total date_max date_max
      | simpa using dateLE_total da db)

/-- Every spouse tuple kept by the collection loop has a non-empty sentence. -/
theorem spouse_death_tuples_sent_ne (l : List Spouse) (r : List (Option PyDate × String))
    (h : spouse_death_tuples l = Except.ok r) : ∀ t ∈ r, ¬t.2 = "" := by
  induction l generalizing r with
  | nil =>
    simp only [spouse_death_tuples, pure, Except.pure] at h
    cases h
    simp
  | cons sp rest ih =>
    simp only [spouse_death_tuples, Bind.bind, Except.bind] at h
    cases hdt : death_tuple sp.entry with
    | error er => rw [hdt] at h; cases h
    | ok t0 =>
      rw [hdt] at h
      cases hrec : spouse_death_tuples rest with
      | error er => rw [hrec] at h; cases h
      | ok r0 =>
        rw [hrec] at h
        dsimp only at h
        simp only [pure, Except.pure] at h
        by_cases he : t0.2.isEmpty
        · rw [if_pos he] at h
          cases h
          exact ih _ hrec
        · rw [if_neg he] at h
          cases h
          intro t ht
          rcases List.mem_cons.mp ht with h1 | h1
          · subst h1
            intro h2
            rw [h2] at he
            exact he (by decide)
          · exact ih _ hrec t h1

/-- Every collected death entry has a non-empty sentence. -/
theorem collect_death_entries_sent_ne (p : Person) (entries : List (Option PyDate × String))
    (h : collect_death_entries p = Except.ok entries) : ∀ t ∈ entries, ¬t.2 = "" := by
  simp only [collect_death_entries, Bind.bind, Except.bind] at h
  cases hdt : death_tuple (Person.entry p) with
  | error er => rw [hdt] at h; cases h
  | ok t0 =>
    rw [hdt] at h
    cases hrec : spouse_death_tuples p.spouses with
    | error er => rw [hrec] at h; cases h
    | ok r0 =>
      rw [hrec] at h
      dsimp only at h
      simp only [pure, Except.pure] at h
      by_cases he : t0.2.isEmpty
      · rw [if_pos he] at h
        cases h
        exact spouse_death_tuples_sent_ne p.spouses _ hrec
      · rw [if_neg he] at h
        cases h
        intro t ht
        rcases List.mem_cons.mp ht with h1 | h1
        · subst h1
          intro h2
          rw [h2] at he
          exact he (by decide)
        · exact spouse_death_tuples_sent_ne p.spouses _ hrec t h1

/-- A death tuple carries a sentence exactly when the death date renders to
a non-empty phrase or a death place is present. -/
theorem death_tuple_sent_iff (e : Entry) (t : Option PyDate × String)
    (h : death_tuple e = Except.ok t) :
    (¬t.2 = "" ↔
      (∃ w, format_when_iso ((e.death.getD {}).date) = Except.ok (some w) ∧ ¬w = "") ∨
      truthyStr ((e.death.getD {}).place) = true) := by
  simp only [death_tuple, death_sentence, Bind.bind, Except.bind] at h
  cases hfw : format_when_iso ((e.death.getD {}).date) with
  | error er => rw [hfw] at h; cases h
  | ok w0 =>
    rw [hfw] at h
    dsimp only at h
    by_cases hg : (!truthyStr w0 && !truthyStr ((e.death.getD {}).place)) = true
    · rw [if_pos hg] at h
      simp only [pure, Except.pure] at h
      cases h
      simp only [Bool.and_eq_true, Bool.not_eq_true'] at hg
      refine iff_of_false (by simp) ?_
      rintro (⟨w, hw, hwne⟩ | hpl)
      · injection hw with hw2
        rw [hw2] at hg
        apply hwne
        have h3 := hg.1
        simp only [truthyStr, Option.getD_some, Bool.not_eq_false'] at h3
        exact (String.isEmpty_iff w).mp h3
      · rw [hg.2] at hpl
        cases hpl
    · rw [if_neg hg] at h
      simp only [pure, Except.pure] at h
      cases h
      simp only [Bool.and_eq_true, Bool.not_eq_true', not_and_or, Bool.not_eq_false] at hg
      refine iff_of_true ?_ ?_
      · repeat
          first
          | exact safe_name_ne_empty _
          | apply str_append_ne_empty_left
          | split
      · rcases hg with hw | hpl
        · left
          cases w0 with
          | none => exact absurd hw (by decide)
          | some w =>
            refine ⟨w, rfl, ?_⟩
            intro hweq
            rw [hweq] at hw
            exact absurd hw (by decide)
        · right
          exact hpl

/-- C5: the death block. The sorted entry list is a permutation of the
collected one; it is ordered so that a dated entry never follows an undated
one and dated entries are ascending by their (full `YYYY-MM-DD`) death date;
undated entries keep their original encounter order (their filtered
subsequence is unchanged); every collected entry has a non-empty sentence,
an entry contributes a sentence exactly when its death date renders or a
death place exists (so a person with neither contributes nothing); and the
block joins the sorted sentences with single spaces. -/
theorem c5_death_block_order :
    ∀ (p : Person) (entries : List (Option PyDate × String)),
      collect_death_entries p = Except.ok entries →
      (sort_death_entries entries).Perm entries ∧
      (sort_death_entries entries).Pairwise (fun a b =>
        (a.1.isNone = true → b.1.isNone = true) ∧
        (∀ da db, a.1 = some da → b.1 = some db → dateLE da db = true)) ∧
      (sort_death_entries entries).filter (fun x => x.1.isNone) =
        entries.filter (fun x => x.1.isNone) ∧
      (∀ t, t ∈ entries → ¬t.2 = "") ∧
      (∀ e : Entry, has_death_info_ev e.death = false → death_tuple e = Except.ok (none, "")) ∧
      (∀ (e : Entry) (t : Option PyDate × String), death_tuple e = Except.ok t →
        (¬t.2 = "" ↔
          (∃ w, format_when_iso ((e.death.getD {}).date) = Except.ok (some w) ∧ ¬w = "") ∨
          truthyStr ((e.death.getD {}).place) = true)) ∧
      death_block entries =
        String.intercalate " " ((sort_death_entries entries).map (fun t => t.2)) := by
  intro p entries hcol
  refine ⟨List.mergeSort_perm entries entryLE, ?_, ?_,
    collect_death_entries_sent_ne p entries hcol,
    fun e he => death_tuple_no_info e he,
    fun e t ht => death_tuple_sent_iff e t ht, rfl⟩
  · have hs := List.sorted_mergeSort entryLE_trans entryLE_total entries
    refine hs.imp ?_
    intro a b hab
    refine ⟨fun ha => ?_, fun da db hda hdb => ?_⟩
    · rw [entryLE, ha] at hab
      simp only [Bool.not_true, Bool.false_and, Bool.false_or, Bool.and_eq_true,
        beq_iff_eq] at hab
      exact hab.1.symm
    · rw [entryLE, hda, hdb] at hab
      simpa using hab
  · have hall : ∀ x ∈ entries.filter (fun x => x.1.isNone), x.1.isNone = true := by
      intro x hx
      exact (List.mem_filter.mp hx).2
    have hpw : (entries.filter (fun x => x.1.isNone)).Pairwise (fun a b => entryLE a b = true) := by
      apply List.pairwise_of_forall_mem_list
      intro a ha b hb
      have ha2 : a.1 = none := Option.isNone_iff_eq_none.mp (hall a ha)
      have hb2 : b.1 = none := Option.isNone_iff_eq_none.mp (hall b hb)
      simp [entryLE, ha2, hb2, dateLE]
    have h1 : List.Sublist (entries.filter (fun x => x.1.isNone)) (sort_death_entries entries) :=
      List.sublist_mergeSort entryLE_trans entryLE_total hpw (List.filter_sublist entries)
    have h3 := List.Sublist.filter (fun x => x.1.isNone) h1
    rw [List.filter_eq_self.mpr hall] at h3
    have h4 := List.Perm.filter (fun x => x.1.isNone) (List.mergeSort_perm entries entryLE)
    exact (List.Sublist.eq_of_length h3 h4.length_eq.symm).symm


/-- C5 witness: the theorem applied at the three-entry record; the collected
entries are the subject then the spouses, each with its sentence, the
year-only death date parsing as dateless. -/
theorem c5_death_block_order_witness :
    (sort_death_entries
      [(some ⟨1950, 1, 1⟩, "Ann Roe died on 1 January 1950."),
       (some ⟨1910, 5, 5⟩, "Bob Roe died on 5 May 1910."),
       ((none : Option PyDate), "Cal Roe died on 1900.")]).Perm
      [(some ⟨1950, 1, 1⟩, "Ann Roe died on 1 January 1950."),
       (some ⟨1910, 5, 5⟩, "Bob Roe died on 5 May 1910."),
       ((none : Option PyDate), "Cal Roe died on 1900.")] :=
  (c5_death_block_order c5_person
    [(some ⟨1950, 1, 1⟩, "Ann Roe died on 1 January 1950."),
     (some ⟨1910, 5, 5⟩, "Bob Roe died on 5 May 1910."),
     ((none : Option PyDate), "Cal Roe died on 1900.")] rfl).1
